import Mathlib

/-!
Verification development for the central application store of the
bitmidi/nodefoo content-sharing application (source: the Express render
router together with the store module, `src/server/router-render.js`).

The embedding is two-level, mirroring the source:

* `Nodefoo` — the store created by `createStore`: the mutable `store`
  object, the `dispatch` reducer and its helper functions
  (`fetchStart`, `fetchDone`, `addError`, `addSnippet`, `addSearch`,
  `addPendingDispatch`).  External collaborator calls (the API client,
  the routing collaborator `loc`, `window.location.href` redirects,
  analytics, the clipboard, `console.error`) are recorded in an
  effect log; the scheduler function `update()` is recorded as a
  render request (the scheduler itself is modelled in `Sched`).
  JavaScript mutates `store` in place, so a thrown exception leaves
  the mutations performed before the throw visible: `dispatch`
  therefore returns the state reached together with an optional error
  instead of an `Except`.

* `Sched` — the render scheduler (`update`, `isRendering`,
  `isUpdatePending`) with the external render function instrumented by
  ghost fields counting render invocations and their nesting depth.

* `Router` — the server handler wiring (`onFetchEnd`, `done`,
  `process.nextTick` modelled as a queue of deferred callbacks).
-/

namespace Nodefoo

/-- A resolved route record `{name, params, url, query, pathname}` as
delivered by the routing collaborator and stored in `store.location`. -/
structure Loc where
  name : Option String
  params : List (String × String)
  url : Option String
  query : List (String × String)
  pathname : Option String
  deriving DecidableEq, Repr

/-- A JavaScript `Error` value as it appears in action payloads:
`message`, an optional `code` property, and `stack`. -/
structure ErrObj where
  message : String
  code : Option String
  stack : String
  deriving DecidableEq, Repr

/-- The record appended to `store.errors` by `addError`:
`{ message, code }` with `code` defaulting to `null`. -/
structure ErrRec where
  message : String
  code : Option String
  deriving DecidableEq, Repr

/-- A snippet entity; `id` keys the `store.snippets` map and `body` is
the representative payload field. -/
structure Snip where
  id : String
  body : String
  deriving DecidableEq, Repr

/-- A search result; `q` keys the `store.searches` map. -/
structure SearchRes where
  q : String
  snippetIds : List String
  deriving DecidableEq, Repr

/-- Action payloads.  The program only ever dispatches each tag with
the payload shape its callers construct (a URL string, a resolved
location, a size record, or a `\x7b err, result \x7d` completion
record built by a start action's continuation); the model enumerates
exactly those shapes. -/
inductive Data where
  | null
  | str (s : String)
  | size (width height : Int)
  | locd (l : Loc)
  | errRes (err : Option ErrObj)
  | errDoc (err : Option ErrObj) (doc : Option String)
  | errSnip (err : Option ErrObj) (snippet : Option Snip)
  | errSnips (err : Option ErrObj) (snippets : List Snip)
  | errSearch (err : Option ErrObj) (search : Option SearchRes)
  deriving DecidableEq, Repr

/-- Contents of the durable slot `window.localStorage.pendingDispatch`.
`good` is the result of `JSON.stringify(\x7b type, data \x7d)` on a
serializable action, which `JSON.parse` round-trips; `bad` is a string
`JSON.parse` rejects (external corruption). -/
inductive BridgeVal where
  | good (type : String) (data : Data)
  | bad (raw : String)
  deriving DecidableEq, Repr

/-- A call made to the API collaborator, with the payload passed. -/
inductive ApiCall where
  | docGet (d : Data)
  | snippetAdd (d : Data)
  | snippetVote (d : Data)
  | snippetGet (d : Data)
  | snippetAll (d : Data)
  | snippetSearch (d : Data)
  deriving DecidableEq, Repr

/-- A call made to the routing collaborator `loc`. -/
inductive LocOp where
  | push (url : Data)
  | replace (url : Data)
  | back
  deriving DecidableEq, Repr

/-- A JavaScript exception escaping `dispatch`, or fuel exhaustion of
the model (never reached at the fuel values used in the theorems). -/
inductive DErr where
  | outOfFuel
  | unrecognized (type : String)
  | typeError (msg : String)
  | payloadShape (type : String)
  deriving DecidableEq, Repr

/-- The `store` object literal of `createStore`. -/
structure Store where
  location : Loc
  title : Option String
  width : Int
  height : Int
  fetchCount : Int
  fatalError : Option String
  errors : List ErrRec
  userName : Option String
  lastSearch : Option String
  snippets : List (String × Snip)
  searches : List (String × SearchRes)
  topSnippetIds : Option (List String)
  doc : Option String
  deriving DecidableEq, Repr

/-- Log of collaborator calls issued by the reducer, plus the count of
render requests (calls to the scheduler function `update()`) and of
notifications of the registered `onFetchDone` observer. -/
structure Effects where
  apiCalls : List ApiCall
  locOps : List LocOp
  redirects : List String
  analytics : List (Option String)
  clipboardCopies : List Data
  consoleErrors : List String
  renderRequests : Nat
  notifies : Nat
  deriving DecidableEq, Repr

/-- The complete model state: the store, the effect log, the durable
bridge slot, the debug log written at every `dispatch` entry, and the
`config.isBrowser` flag. -/
structure St where
  store : Store
  fx : Effects
  pendingDispatch : Option BridgeVal
  log : List (String × Data)
  isBrowser : Bool
  deriving DecidableEq, Repr

/-- The initial store of `createStore`, with empty effect log and an
empty bridge slot. -/
def initSt : St :=
  { store :=
      { location := { name := none, params := [], url := none, query := [], pathname := none }
        title := none
        width := 0
        height := 0
        fetchCount := 0
        fatalError := none
        errors := []
        userName := none
        lastSearch := none
        snippets := []
        searches := []
        topSnippetIds := none
        doc := none }
    fx :=
      { apiCalls := []
        locOps := []
        redirects := []
        analytics := []
        clipboardCopies := []
        consoleErrors := []
        renderRequests := 0
        notifies := 0 }
    pendingDispatch := none
    log := []
    isBrowser := false }

/-- The external configuration value `config.name` (its concrete value
is irrelevant to every claim). -/
def configName : String := "nodefoo"

/-- Requesting a render: the reducer's calls to the scheduler function
`update()` are recorded as render requests (the scheduler itself is
modelled in `Sched`). -/
def update (s : St) : St :=
  { s with fx.renderRequests := s.fx.renderRequests + 1 }

/-- Reference counter for pending fetches: `fetchStart` increments. -/
def fetchStart (s : St) : St :=
  { s with store.fetchCount := s.store.fetchCount + 1 }

/-- Reference counter for pending fetches: `fetchDone` decrements and
invokes the registered `onFetchDone` observer. -/
def fetchDone (s : St) : St :=
  { s with store.fetchCount := s.store.fetchCount - 1
           fx.notifies := s.fx.notifies + 1 }

/-- Appending a recoverable error: destructures
`\x7b message, code = null, stack \x7d`, pushes `\x7b message, code \x7d`
onto `store.errors`, logs the stack to the console and requests a
render. -/
def addError (s : St) (err : ErrObj) : St :=
  update { s with store.errors := s.store.errors ++ [⟨err.message, err.code⟩]
                  fx.consoleErrors := s.fx.consoleErrors ++ [err.stack] }

/-- Keyed overwrite into an association list, modelling assignment to
an object property. -/
def insertAssoc {α : Type} (k : String) (v : α) (m : List (String × α)) :
    List (String × α) :=
  (m.filter (fun p => p.1 ≠ k)) ++ [(k, v)]

/-- Assignment `store.snippets[snippet.id] = snippet`. -/
def addSnippet (s : St) (snippet : Snip) : St :=
  { s with store.snippets := insertAssoc snippet.id snippet s.store.snippets }

/-- Assignment `store.searches[search.q] = search`. -/
def addSearch (s : St) (search : SearchRes) : St :=
  { s with store.searches := insertAssoc search.q search s.store.searches }

/-- Persisting an action into the Pending-Action Bridge:
`window.localStorage.pendingDispatch = JSON.stringify(\x7b type, data \x7d)`. -/
def addPendingDispatch (s : St) (type : String) (data : Data) : St :=
  { s with pendingDispatch := some (BridgeVal.good type data) }

/-- JavaScript strict inequality `data !== store.location.url` between
an action payload and the current URL, which is a string or `null`
(object operands are never strictly equal to a string or to `null`). -/
def jsStrNeq (d : Data) (url : Option String) : Bool :=
  match d, url with
  | Data.str u, some v => u ≠ v
  | Data.str _, none => true
  | Data.null, none => false
  | Data.null, some _ => true
  | _, _ => true

/-- The query-string encoding `querystring.encode(\x7b q: data \x7d)` of
the external node library (its exact escaping is irrelevant to every
claim). -/
def qsEncode (q : String) : String := "q=" ++ q

/-- The login-requirement error constructed by the unauthenticated
branch of `API_SNIPPET_ADD`. -/
def loginError : ErrObj :=
  { message := "Last step! Log in to get credit for your contribution."
    code := none
    stack := "Error: Last step! Log in to get credit for your contribution." }

/-- The dispatch reducer.  Translates the `switch` of the source
`dispatch(type, data)` case by case; the debug call at entry is the
`log` append.  `fuel` bounds the re-entrant dispatch depth (the source
recursion is finite; every theorem uses sufficient fuel).  A returned
`DErr` is a JavaScript exception thrown after the state mutations
already performed. -/
def dispatch : Nat → String → Data → St → St × Option DErr
  | 0, _, _, s => (s, some DErr.outOfFuel)
  | Nat.succ fuel, type, data, s0 =>
    let s := { s0 with log := s0.log ++ [(type, data)] }
    match type with
    | "LOCATION_PUSH" =>
      if jsStrNeq data s.store.location.url then
        ({ s with fx.locOps := s.fx.locOps ++ [LocOp.push data] }, none)
      else (s, none)
    | "LOCATION_REPLACE" =>
      if jsStrNeq data s.store.location.url then
        ({ s with fx.locOps := s.fx.locOps ++ [LocOp.replace data] }, none)
      else (s, none)
    | "LOCATION_BACK" =>
      ({ s with fx.locOps := s.fx.locOps ++ [LocOp.back] }, none)
    | "LOCATION_CHANGED" =>
      match data with
      | Data.locd l =>
        let s1 := { s with store.location := l, store.fatalError := none }
        let s2 :=
          if s1.isBrowser then
            { s1 with fx.analytics := s1.fx.analytics ++ [s1.store.location.url] }
          else s1
        (update s2, none)
      | _ => (s, some (DErr.payloadShape type))
    | "APP_TITLE" =>
      match data with
      | Data.str t =>
        let title := if t ≠ "" then t ++ " – " ++ configName else configName
        (update { s with store.title := some title }, none)
      | Data.null =>
        (update { s with store.title := some configName }, none)
      | _ => (s, some (DErr.payloadShape type))
    | "APP_RESIZE" =>
      match data with
      | Data.size w h =>
        (update { s with store.width := w, store.height := h }, none)
      | _ => (s, some (DErr.payloadShape type))
    | "API_DOC" =>
      let s1 := fetchStart s
      let s2 := { s1 with fx.apiCalls := s1.fx.apiCalls ++ [ApiCall.docGet data] }
      (update s2, none)
    | "API_DOC_DONE" =>
      let s1 := fetchDone s
      match data with
      | Data.errDoc err doc =>
        match err with
        | some e => (addError s1 e, none)
        | none => (update { s1 with store.doc := doc }, none)
      | _ => (s1, some (DErr.payloadShape type))
    | "API_SNIPPET_ADD" =>
      let s1 := fetchStart s
      match s1.store.userName with
      | none =>
        let s2 := addPendingDispatch s1 type data
        let s3 := addError s2 loginError
        let s4 := { s3 with fx.redirects := s3.fx.redirects ++ ["/auth/twitter"] }
        (s4, none)
      | some _ =>
        let s2 := { s1 with fx.apiCalls := s1.fx.apiCalls ++ [ApiCall.snippetAdd data] }
        (update s2, none)
    | "API_SNIPPET_ADD_DONE" =>
      let s1 := fetchDone s
      match data with
      | Data.errRes err =>
        match err with
        | some e => (addError s1 e, none)
        | none =>
          match dispatch fuel "LOCATION_PUSH" (Data.str "/") s1 with
          | (s2, some e) => (s2, some e)
          | (s2, none) => (update s2, none)
      | _ => (s1, some (DErr.payloadShape type))
    | "API_SNIPPET_VOTE" =>
      let s1 := fetchStart s
      let s2 := { s1 with fx.apiCalls := s1.fx.apiCalls ++ [ApiCall.snippetVote data] }
      (update s2, none)
    | "API_SNIPPET_VOTE_DONE" =>
      let s1 := fetchDone s
      match data with
      | Data.errSnip err snippet =>
        match err with
        | some e => (addError s1 e, none)
        | none =>
          match snippet with
          | some sn => (update (addSnippet s1 sn), none)
          | none => (s1, some (DErr.typeError "cannot read id of undefined"))
      | _ => (s1, some (DErr.payloadShape type))
    | "API_SNIPPET_GET" =>
      let s1 := fetchStart s
      let s2 := { s1 with fx.apiCalls := s1.fx.apiCalls ++ [ApiCall.snippetGet data] }
      (update s2, none)
    | "API_SNIPPET_GET_DONE" =>
      let s1 := fetchDone s
      match data with
      | Data.errSnip err snippet =>
        match err with
        | some e => (addError s1 e, none)
        | none =>
          match snippet with
          | some sn => (update (addSnippet s1 sn), none)
          | none => (s1, some (DErr.typeError "cannot read id of undefined"))
      | _ => (s1, some (DErr.payloadShape type))
    | "API_SNIPPET_ALL" =>
      let s1 := fetchStart s
      let s2 := { s1 with fx.apiCalls := s1.fx.apiCalls ++ [ApiCall.snippetAll data] }
      (update s2, none)
    | "API_SNIPPET_ALL_DONE" =>
      let s1 := fetchDone s
      match data with
      | Data.errSnips err snippets =>
        match err with
        | some e => (addError s1 e, none)
        | none =>
          let s2 := snippets.foldl addSnippet s1
          let s3 := { s2 with store.topSnippetIds := some (snippets.map Snip.id) }
          (update s3, none)
      | _ => (s1, some (DErr.payloadShape type))
    | "API_SNIPPET_SEARCH" =>
      let s1 := fetchStart s
      let s2 := { s1 with fx.apiCalls := s1.fx.apiCalls ++ [ApiCall.snippetSearch data] }
      (update s2, none)
    | "API_SNIPPET_SEARCH_DONE" =>
      let s1 := fetchDone s
      match data with
      | Data.errSearch err search =>
        match err with
        | some e => (addError s1 e, none)
        | none =>
          match search with
          | some se => (update (addSearch s1 se), none)
          | none => (s1, some (DErr.typeError "cannot read q of undefined"))
      | _ => (s1, some (DErr.payloadShape type))
    | "SEARCH_INPUT" =>
      match data with
      | Data.str q =>
        let s1 := { s with store.lastSearch := some q }
        if q = "" then
          let (s2, e) := dispatch fuel "LOCATION_BACK" Data.null s1
          (s2, e)
        else
          let url := "/search?" ++ qsEncode q
          let tag := if s1.store.location.name = some "search"
                     then "LOCATION_REPLACE" else "LOCATION_PUSH"
          let (s2, e) := dispatch fuel tag (Data.str url) s1
          (s2, e)
      | _ => (s, some (DErr.payloadShape type))
    | "CLIPBOARD_COPY" =>
      ({ s with fx.clipboardCopies := s.fx.clipboardCopies ++ [data] }, none)
    | "RUN_PENDING_DISPATCH" =>
      match s.pendingDispatch with
      | none => (s, none)
      | some (BridgeVal.good t d) =>
        let s1 := { s with pendingDispatch := none }
        match dispatch fuel t d s1 with
        | (s2, some e) => (s2, some e)
        | (s2, none) => (update s2, none)
      | some (BridgeVal.bad _) =>
        let s1 := { s with pendingDispatch := none }
        (s1, some (DErr.typeError "cannot read type of undefined"))
    | _ => (s, some (DErr.unrecognized type))

/-- The fixed, enumerable set of tags handled by the reducer's
`switch`; every other tag falls through to the fatal default case. -/
def knownTags : List String :=
  ["LOCATION_PUSH", "LOCATION_REPLACE", "LOCATION_BACK", "LOCATION_CHANGED",
   "APP_TITLE", "APP_RESIZE",
   "API_DOC", "API_DOC_DONE",
   "API_SNIPPET_ADD", "API_SNIPPET_ADD_DONE",
   "API_SNIPPET_VOTE", "API_SNIPPET_VOTE_DONE",
   "API_SNIPPET_GET", "API_SNIPPET_GET_DONE",
   "API_SNIPPET_ALL", "API_SNIPPET_ALL_DONE",
   "API_SNIPPET_SEARCH", "API_SNIPPET_SEARCH_DONE",
   "SEARCH_INPUT", "CLIPBOARD_COPY", "RUN_PENDING_DISPATCH"]

/-- The six asynchronous-operation start tags. -/
def startTagList : List String :=
  ["API_DOC", "API_SNIPPET_ADD", "API_SNIPPET_VOTE",
   "API_SNIPPET_GET", "API_SNIPPET_ALL", "API_SNIPPET_SEARCH"]

/-- The done tag paired with a start tag. -/
def doneTagOf (t : String) : String := t ++ "_DONE"

/-- Whether a tag is a start tag. -/
def isStartTag (t : String) : Bool := startTagList.contains t

/-- Whether a tag is the done tag of some start tag. -/
def isDoneTag (t : String) : Bool := (startTagList.map doneTagOf).contains t

/-- Whether a payload has the shape the corresponding start action's
continuation constructs for its done dispatch, honouring the API
contract `callback(error, result)` (on success the result is
present). -/
def wellDone : String → Data → Bool
  | "API_DOC_DONE", Data.errDoc _ _ => true
  | "API_SNIPPET_ADD_DONE", Data.errRes _ => true
  | "API_SNIPPET_VOTE_DONE", Data.errSnip e sn => e.isSome || sn.isSome
  | "API_SNIPPET_GET_DONE", Data.errSnip e sn => e.isSome || sn.isSome
  | "API_SNIPPET_ALL_DONE", Data.errSnips _ _ => true
  | "API_SNIPPET_SEARCH_DONE", Data.errSearch e se => e.isSome || se.isSome
  | _, _ => false

/-- A dispatched action admissible in a start/done sequence: a start
action (any payload) or a done action with the payload shape its
continuation constructs. -/
def goodAct (a : String × Data) : Bool :=
  isStartTag a.1 || (isDoneTag a.1 && wellDone a.1 a.2)

/-- The fetch-counter movement of one start/done action. -/
def fcDelta (a : String × Data) : Int := if isStartTag a.1 then 1 else -1

/-- The aggregate fetch-counter movement of a sequence. -/
def netDelta (p : List (String × Data)) : Int := (p.map fcDelta).sum

/-- The number of dispatches of a given tag in a sequence. -/
def countTag (t : String) (p : List (String × Data)) : Nat :=
  (p.filter (fun a => a.1 == t)).length

/-- Dispatching a sequence of externally triggered actions one after
the other (each dispatch runs to completion before the next, per the
single-threaded model); a thrown exception aborts the sequence.  Fuel
2 covers every start/done action: the only nested dispatch among them
is `API_SNIPPET_ADD_DONE` → `LOCATION_PUSH`. -/
def runSeq : List (String × Data) → St → St × Option DErr
  | [], s => (s, none)
  | a :: rest, s =>
    match dispatch 2 a.1 a.2 s with
    | (s1, some e) => (s1, some e)
    | (s1, none) => runSeq rest s1

/-- The per-tag balance of a sequence: the sum, over the six start
tags, of how many starts of that tag exceed their matching dones. -/
def tagBal (p : List (String × Data)) : Int :=
  (startTagList.map
    (fun t => (countTag t p : Int) - (countTag (doneTagOf t) p : Int))).sum

/-- The outcome required of a done dispatch whose payload carries an
error: no exception, counter decremented, exactly one
`\x7b message, code \x7d` record appended, one render requested, and
the entity cache, `topSnippetIds`, `doc` and `location` untouched. -/
def DoneErrOutcome (s : St) (r : St × Option DErr) (e : ErrObj) : Prop :=
  r.2 = none ∧
  r.1.store.fetchCount = s.store.fetchCount - 1 ∧
  r.1.store.errors = s.store.errors ++ [⟨e.message, e.code⟩] ∧
  r.1.fx.renderRequests = s.fx.renderRequests + 1 ∧
  r.1.store.snippets = s.store.snippets ∧
  r.1.store.searches = s.store.searches ∧
  r.1.store.topSnippetIds = s.store.topSnippetIds ∧
  r.1.store.doc = s.store.doc ∧
  r.1.store.location = s.store.location

end Nodefoo

namespace Sched

/-- Render-scheduler state: the two guard booleans of the source
(`isRendering`, `isUpdatePending`) together with ghost instrumentation
of the external render function — `renders` counts its invocations,
`active` the currently nested invocations and `maxActive` the largest
nesting ever observed (re-entrancy would show as `maxActive ≥ 2`). -/
structure SchedSt where
  isRendering : Bool
  isUpdatePending : Bool
  renders : Nat
  active : Nat
  maxActive : Nat
  deriving DecidableEq, Repr

mutual

/-- The scheduler function `update()` of the source.  The behaviour of
the external `render()` is scripted: the head of `script` is the
number of dispatches the current render pass issues synchronously
(each of which calls `update()` re-entrantly), and the tail scripts
the subsequent passes.  `fuel` bounds the recursion depth (the
theorems supply enough). -/
def update : Nat → List Nat → SchedSt → SchedSt
  | 0, _, g => g
  | Nat.succ fuel, script, g =>
    if g.isRendering then { g with isUpdatePending := true }
    else
      let n := script.headD 0
      let rest := script.tail
      let g1 := { g with isRendering := true }
      let g2 := renderPass fuel rest n g1
      let g3 := { g2 with isRendering := false }
      if g3.isUpdatePending then update fuel rest { g3 with isUpdatePending := false }
      else g3
termination_by fuel _ _ => (fuel, 0, 0)

/-- One invocation of the external render function: enters (ghost
fields), issues its scripted `n` synchronous re-entrant `update()`
calls, and returns. -/
def renderPass : Nat → List Nat → Nat → SchedSt → SchedSt
  | fuel, rest, n, g =>
    let gIn := { g with renders := g.renders + 1
                        active := g.active + 1
                        maxActive := max g.maxActive (g.active + 1) }
    let gOut := nestedUpdates fuel rest n gIn
    { gOut with active := gOut.active - 1 }
termination_by fuel _ n _ => (fuel, 2, n)

/-- The `n` synchronous dispatch-triggered `update()` calls issued
from inside a render pass. -/
def nestedUpdates : Nat → List Nat → Nat → SchedSt → SchedSt
  | _, _, 0, g => g
  | fuel, rest, Nat.succ n, g => nestedUpdates fuel rest n (update fuel rest g)
termination_by fuel _ n _ => (fuel, 1, n)

end

/-- The scheduler's idle state: not rendering, no pending request,
ghost counters zero. -/
def idle : SchedSt :=
  { isRendering := false, isUpdatePending := false, renders := 0
    active := 0, maxActive := 0 }

end Sched

namespace Router

open Nodefoo

/-- The per-request context of the server render handler: the store,
the number of `process.nextTick(done)` callbacks currently queued, and
the HTTP status once `done()` has run (`none` before). -/
structure Ctx where
  st : St
  ticks : Nat
  status : Option Nat
  deriving DecidableEq, Repr

/-- The handler's `done()`: formats the response with status 404 when
`store.location.name === 'not-found'` and 200 otherwise. -/
def done (c : Ctx) : Ctx :=
  { c with status := some (if c.st.store.location.name = some "not-found" then 404 else 200) }

/-- The handler's `onFetchEnd()`: when the counter reads zero it
defers `done` to the next tick (`process.nextTick(done)` queues the
callback; nothing runs synchronously). -/
def onFetchEnd (c : Ctx) : Ctx :=
  if c.st.store.fetchCount = 0 then { c with ticks := c.ticks + 1 } else c

/-- The store's `fetchDone()` as wired in the server handler, where
the registered `onFetchDone` observer is `onFetchEnd`. -/
def storeFetchDone (c : Ctx) : Ctx :=
  onFetchEnd { c with st := Nodefoo.fetchDone c.st }

/-- The event loop running one queued `process.nextTick` callback,
which is always `done`. -/
def runNextTick (c : Ctx) : Ctx :=
  match c.ticks with
  | 0 => c
  | Nat.succ t => done { c with ticks := t }

/-- The `router.get` handler body up to its synchronous completion:
create the store, dispatch `LOCATION_REPLACE req.url`, and respond at
once when the fetch counter is already zero.  Modelled from the spec:
the routing collaborator (`src/lib/location`, not under `src/`)
resolves the URL with the routing table `resolve` and synchronously
notifies the location-changed callback, which dispatches
`LOCATION_CHANGED` with the resolved record. -/
def handleGet (fuel : Nat) (resolve : String → Loc) (url : String) :
    Ctx × Option DErr :=
  let s0 := initSt
  match Nodefoo.dispatch fuel "LOCATION_REPLACE" (Data.str url) s0 with
  | (s1, some e) => ({ st := s1, ticks := 0, status := none }, some e)
  | (s1, none) =>
    match Nodefoo.dispatch fuel "LOCATION_CHANGED" (Data.locd (resolve url)) s1 with
    | (s2, some e) => ({ st := s2, ticks := 0, status := none }, some e)
    | (s2, none) =>
      let c : Ctx := { st := s2, ticks := 0, status := none }
      if s2.store.fetchCount = 0 then (done c, none) else (c, none)

end Router

namespace Nodefoo

/-- C8: dispatching any tag outside the reducer's fixed enumerable set
throws an uncaught error — never a silent no-op — and modifies no
store state, no effect log and not the bridge slot (only the entry
debug log records the call). -/
theorem c8_unrecognized_tag_fatal (t : String) (d : Data) (s : St) (fuel : Nat)
    (ht : t ∉ knownTags) :
    dispatch (fuel + 1) t d s =
      ({ s with log := s.log ++ [(t, d)] }, some (DErr.unrecognized t)) := by
  simp only [knownTags, List.mem_cons, List.not_mem_nil, or_false, not_or] at ht
  obtain ⟨h1, h2, h3, h4, h5, h6, h7, h8, h9, h10, h11, h12, h13, h14, h15, h16,
    h17, h18, h19, h20, h21⟩ := ht
  simp [dispatch, h1, h2, h3, h4, h5, h6, h7, h8, h9, h10, h11, h12, h13, h14,
    h15, h16, h17, h18, h19, h20, h21]

/-- Closed witness for the unrecognized-tag theorem at the concrete
tag BOGUS. -/
theorem c8_unrecognized_tag_fatal_witness :
    "BOGUS" ∉ knownTags ∧
    dispatch 1 "BOGUS" Data.null initSt =
      ({ initSt with log := initSt.log ++ [("BOGUS", Data.null)] },
        some (DErr.unrecognized "BOGUS")) :=
  ⟨by decide, c8_unrecognized_tag_fatal "BOGUS" Data.null initSt 0 (by decide)⟩

end Nodefoo

namespace Nodefoo

/-- C10: dispatching LOCATION_PUSH or LOCATION_REPLACE with a URL
equal to the current `store.location.url` is a complete no-op — the
routing collaborator is not called, no store state or effect changes
and no render is requested (only the entry debug log grows) — while a
differing URL invokes exactly the routing collaborator and changes
nothing else. -/
theorem c10_location_same_url_noop (s : St) (u : String) (fuel : Nat) :
    (s.store.location.url = some u →
      dispatch (fuel + 1) "LOCATION_PUSH" (Data.str u) s =
        ({ s with log := s.log ++ [("LOCATION_PUSH", Data.str u)] }, none) ∧
      dispatch (fuel + 1) "LOCATION_REPLACE" (Data.str u) s =
        ({ s with log := s.log ++ [("LOCATION_REPLACE", Data.str u)] }, none)) ∧
    (s.store.location.url ≠ some u →
      dispatch (fuel + 1) "LOCATION_PUSH" (Data.str u) s =
        ({ s with fx.locOps := s.fx.locOps ++ [LocOp.push (Data.str u)]
                  log := s.log ++ [("LOCATION_PUSH", Data.str u)] }, none) ∧
      dispatch (fuel + 1) "LOCATION_REPLACE" (Data.str u) s =
        ({ s with fx.locOps := s.fx.locOps ++ [LocOp.replace (Data.str u)]
                  log := s.log ++ [("LOCATION_REPLACE", Data.str u)] }, none)) := by
  constructor
  · intro h
    constructor <;> simp [dispatch, jsStrNeq, h]
  · intro h
    rcases hu : s.store.location.url with _ | v
    · constructor <;> simp [dispatch, jsStrNeq, hu]
    · rw [hu] at h
      have hv : u ≠ v := fun he => h (by rw [he])
      constructor <;> simp [dispatch, jsStrNeq, hu, hv]

/-- Closed witness for the location no-op theorem at a concrete state
whose current URL is the dispatched URL, and at the fresh store whose
URL differs. -/
theorem c10_location_same_url_noop_witness :
    (let s := { initSt with store.location.url := some "/a" }
     s.store.location.url = some "/a" ∧
      (dispatch 1 "LOCATION_PUSH" (Data.str "/a") s =
        ({ s with log := s.log ++ [("LOCATION_PUSH", Data.str "/a")] }, none) ∧
       dispatch 1 "LOCATION_REPLACE" (Data.str "/a") s =
        ({ s with log := s.log ++ [("LOCATION_REPLACE", Data.str "/a")] }, none))) ∧
    (initSt.store.location.url ≠ some "/a" ∧
      (dispatch 1 "LOCATION_PUSH" (Data.str "/a") initSt =
        ({ initSt with fx.locOps := initSt.fx.locOps ++ [LocOp.push (Data.str "/a")]
                       log := initSt.log ++ [("LOCATION_PUSH", Data.str "/a")] }, none) ∧
       dispatch 1 "LOCATION_REPLACE" (Data.str "/a") initSt =
        ({ initSt with fx.locOps := initSt.fx.locOps ++ [LocOp.replace (Data.str "/a")]
                       log := initSt.log ++ [("LOCATION_REPLACE", Data.str "/a")] }, none))) :=
  ⟨⟨rfl, (c10_location_same_url_noop _ "/a" 0).1 rfl⟩,
   ⟨by decide, (c10_location_same_url_noop initSt "/a" 0).2 (by decide)⟩⟩

/-- C3: dispatching API_SNIPPET_ADD while unauthenticated makes no API
collaborator call, appends exactly one login-requirement error,
persists the serialized action in the Pending-Action Bridge and issues
a full-page redirect to the authentication entry point. -/
theorem c3_add_unauthenticated (s : St) (d : Data) (fuel : Nat)
    (h : s.store.userName = none) :
    (dispatch (fuel + 1) "API_SNIPPET_ADD" d s).2 = none ∧
    (dispatch (fuel + 1) "API_SNIPPET_ADD" d s).1.fx.apiCalls = s.fx.apiCalls ∧
    (dispatch (fuel + 1) "API_SNIPPET_ADD" d s).1.store.errors =
      s.store.errors ++ [⟨loginError.message, none⟩] ∧
    (dispatch (fuel + 1) "API_SNIPPET_ADD" d s).1.pendingDispatch =
      some (BridgeVal.good "API_SNIPPET_ADD" d) ∧
    (dispatch (fuel + 1) "API_SNIPPET_ADD" d s).1.fx.redirects =
      s.fx.redirects ++ ["/auth/twitter"] := by
  refine ⟨?_, ?_, ?_, ?_, ?_⟩ <;>
    simp [dispatch, fetchStart, addPendingDispatch, addError, update, loginError, h]

/-- Closed witness for the unauthenticated-add theorem at the fresh
store. -/
theorem c3_add_unauthenticated_witness :
    initSt.store.userName = none ∧
    ((dispatch 1 "API_SNIPPET_ADD" (Data.str "body") initSt).2 = none ∧
     (dispatch 1 "API_SNIPPET_ADD" (Data.str "body") initSt).1.fx.apiCalls =
       initSt.fx.apiCalls ∧
     (dispatch 1 "API_SNIPPET_ADD" (Data.str "body") initSt).1.store.errors =
       initSt.store.errors ++ [⟨loginError.message, none⟩] ∧
     (dispatch 1 "API_SNIPPET_ADD" (Data.str "body") initSt).1.pendingDispatch =
       some (BridgeVal.good "API_SNIPPET_ADD" (Data.str "body")) ∧
     (dispatch 1 "API_SNIPPET_ADD" (Data.str "body") initSt).1.fx.redirects =
       initSt.fx.redirects ++ ["/auth/twitter"]) :=
  ⟨rfl, c3_add_unauthenticated initSt (Data.str "body") 0 rfl⟩

/-- C5: evaluation of the code at the failing input: dispatching
RUN_PENDING_DISPATCH while the bridge slot holds a string JSON.parse
rejects clears the slot but then throws a TypeError — the catch only
swallows the parse error, after which the undefined parse result is
dereferenced — instead of completing silently as specified. -/
theorem c5_malformed_bridge_throws :
    dispatch 9 "RUN_PENDING_DISPATCH" Data.null
        { initSt with pendingDispatch := some (BridgeVal.bad "not json") } =
      ({ initSt with pendingDispatch := none
                     log := [("RUN_PENDING_DISPATCH", Data.null)] },
        some (DErr.typeError "cannot read type of undefined")) := by
  decide

end Nodefoo

namespace Nodefoo

/-- C6: every done dispatch whose payload carries a non-null error
decrements the counter, appends exactly one message/code record to the
error log, requests a render, lets no exception escape and leaves the
entity cache, `topSnippetIds`, `doc` and `location` untouched. -/
theorem c6_done_error_outcome (s : St) (e : ErrObj) (fuel : Nat)
    (doc : Option String) (sn : Option Snip) (sl : List Snip) (se : Option SearchRes) :
    DoneErrOutcome s (dispatch (fuel + 1) "API_DOC_DONE" (Data.errDoc (some e) doc) s) e ∧
    DoneErrOutcome s (dispatch (fuel + 1) "API_SNIPPET_ADD_DONE" (Data.errRes (some e)) s) e ∧
    DoneErrOutcome s (dispatch (fuel + 1) "API_SNIPPET_VOTE_DONE" (Data.errSnip (some e) sn) s) e ∧
    DoneErrOutcome s (dispatch (fuel + 1) "API_SNIPPET_GET_DONE" (Data.errSnip (some e) sn) s) e ∧
    DoneErrOutcome s (dispatch (fuel + 1) "API_SNIPPET_ALL_DONE" (Data.errSnips (some e) sl) s) e ∧
    DoneErrOutcome s (dispatch (fuel + 1) "API_SNIPPET_SEARCH_DONE" (Data.errSearch (some e) se) s) e := by
  refine ⟨?_, ?_, ?_, ?_, ?_, ?_⟩ <;>
    simp [DoneErrOutcome, dispatch, fetchDone, addError, update]

end Nodefoo

namespace Router

open Nodefoo

/-- C4: in the server wiring, a fetch-counter decrement schedules the
all-settled observer `done` exactly when the count transitions to
zero, the scheduling is a deferral to the next tick (nothing is
invoked synchronously inside the decrement: the response status is
untouched), and the deferred callback that a later tick runs is
`done` itself. -/
theorem c4_fetchdone_defers_settled (c : Ctx) (t : Nat) :
    (storeFetchDone c).st.store.fetchCount = c.st.store.fetchCount - 1 ∧
    (storeFetchDone c).status = c.status ∧
    (storeFetchDone c).ticks =
      c.ticks + (if c.st.store.fetchCount - 1 = 0 then 1 else 0) ∧
    runNextTick { c with ticks := t + 1 } = done { c with ticks := t } := by
  refine ⟨?_, ?_, ?_, ?_⟩ <;>
    simp [storeFetchDone, onFetchEnd, Nodefoo.fetchDone, runNextTick, done] <;>
    split <;> simp_all [Nodefoo.fetchDone]

/-- C9: whenever the server handler observes the fetch counter at zero
— immediately after the initial LOCATION_REPLACE dispatch, or later
when a queued settled observation runs — the response status it
formats is 404 exactly when `store.location.name` is "not-found" and
200 otherwise. -/
theorem c9_response_status (fuel : Nat) (resolve : String → Loc) (url : String)
    (c : Ctx) :
    (handleGet (fuel + 1) resolve url).2 = none ∧
    (handleGet (fuel + 1) resolve url).1.status =
      some (if (resolve url).name = some "not-found" then 404 else 200) ∧
    (done c).status =
      some (if c.st.store.location.name = some "not-found" then 404 else 200) ∧
    runNextTick { c with ticks := c.ticks + 1 } = done c := by
  refine ⟨?_, ?_, rfl, ?_⟩
  · simp [handleGet, dispatch, jsStrNeq, initSt, update]
  · simp [handleGet, dispatch, jsStrNeq, initSt, update, done]
  · simp [runNextTick, done]

end Router

namespace Nodefoo

/-- C7: replaying a saved action dispatches exactly the saved type and
data, and the bridge slot is cleared before the re-dispatch executes —
the replayed dispatch runs on a state whose slot is already empty —
while a RUN_PENDING_DISPATCH that finds the slot empty is a no-op. -/
theorem c7_bridge_roundtrip (s : St) (t : String) (d x y : Data) (fuel : Nat) :
    (dispatch (fuel + 1) "RUN_PENDING_DISPATCH" x (addPendingDispatch s t d) =
      (match dispatch fuel t d
          { s with pendingDispatch := none
                   log := s.log ++ [("RUN_PENDING_DISPATCH", x)] } with
       | (s2, some e) => (s2, some e)
       | (s2, none) => (update s2, none))) ∧
    (∀ s' : St, s'.pendingDispatch = none →
      dispatch (fuel + 1) "RUN_PENDING_DISPATCH" y s' =
        ({ s' with log := s'.log ++ [("RUN_PENDING_DISPATCH", y)] }, none)) := by
  constructor
  · rfl
  · intro s' h
    simp [dispatch, h]

/-- Closed witness for the bridge round-trip theorem: a clipboard
action saved into the bridge is replayed, and a take from the empty
fresh store is a no-op. -/
theorem c7_bridge_roundtrip_witness :
    (dispatch 2 "RUN_PENDING_DISPATCH" Data.null
        (addPendingDispatch initSt "CLIPBOARD_COPY" (Data.str "z")) =
      (match dispatch 1 "CLIPBOARD_COPY" (Data.str "z")
          { initSt with pendingDispatch := none
                        log := initSt.log ++ [("RUN_PENDING_DISPATCH", Data.null)] } with
       | (s2, some e) => (s2, some e)
       | (s2, none) => (update s2, none))) ∧
    initSt.pendingDispatch = none ∧
    dispatch 2 "RUN_PENDING_DISPATCH" Data.null initSt =
      ({ initSt with log := initSt.log ++ [("RUN_PENDING_DISPATCH", Data.null)] }, none) :=
  ⟨(c7_bridge_roundtrip initSt "CLIPBOARD_COPY" (Data.str "z") Data.null Data.null 1).1,
   rfl,
   (c7_bridge_roundtrip initSt "CLIPBOARD_COPY" (Data.str "z") Data.null Data.null 1).2
     initSt rfl⟩

end Nodefoo

namespace Sched

/-- Re-entrant update calls issued while a render pass is active only
set the pending flag, however many there are (at least one). -/
theorem nestedUpdates_during_render (fuel m : Nat) (rest : List Nat) (g : SchedSt)
    (hg : g.isRendering = true) :
    nestedUpdates (fuel + 1) rest (m + 1) g = { g with isUpdatePending := true } := by
  induction m generalizing g with
  | zero =>
    rw [nestedUpdates, nestedUpdates]
    simp [update, hg]
  | succ k ih =>
    rw [nestedUpdates]
    have h1 : update (fuel + 1) rest g = { g with isUpdatePending := true } := by
      simp [update, hg]
    rw [h1, ih { g with isUpdatePending := true } (by simp [hg])]

/-- A render pass with no script left issues no re-entrant dispatch;
the trailing update therefore renders once and stops. -/
theorem update_quiet (f : Nat) (g : SchedSt) (hg : g.isRendering = false)
    (hp : g.isUpdatePending = false) :
    update (f + 1) [] g =
      { isRendering := false, isUpdatePending := false, renders := g.renders + 1
        active := g.active + 1 - 1, maxActive := g.maxActive ⊔ (g.active + 1) } := by
  simp only [update, hg, hp, Bool.false_eq_true, if_false, List.headD, List.tail]
  rw [renderPass, nestedUpdates]
  simp [hp]

end Sched

namespace Sched

/-- C2: the render function is never invoked re-entrantly — an update
arriving while a render pass is active only records a pending request
and performs no render — and when a render pass issues N ≥ 1
synchronous re-entrant dispatches, exactly one trailing render pass
runs after it (renders = 2, not 1 + N), the nesting of render
invocations never exceeds one, and the pending request is consumed, so
no request is lost. -/
theorem c2_render_coalescing (n f : Nat) (script : List Nat) (g : SchedSt)
    (hn : 1 ≤ n) (hg : g.isRendering = true) :
    (update 2 [n] idle).renders = 2 ∧
    (update 2 [n] idle).maxActive = 1 ∧
    (update 2 [n] idle).isRendering = false ∧
    (update 2 [n] idle).isUpdatePending = false ∧
    update (f + 1) script g = { g with isUpdatePending := true } := by
  obtain ⟨m, rfl⟩ : ∃ m, n = m + 1 := ⟨n - 1, by omega⟩
  have h1 : nestedUpdates 1 [] (m + 1)
      { isRendering := true, isUpdatePending := false, renders := 0 + 1
        active := 0 + 1, maxActive := 0 ⊔ (0 + 1) } =
      { isRendering := true, isUpdatePending := true, renders := 0 + 1
        active := 0 + 1, maxActive := 0 ⊔ (0 + 1) } :=
    nestedUpdates_during_render 0 m [] _ rfl
  have stage1 : update 2 [m + 1] idle =
      update 1 [] { isRendering := false, isUpdatePending := false, renders := 1
                    active := 0, maxActive := 1 } := by
    show update (Nat.succ 1) [m + 1] idle = _
    rw [update]
    simp only [idle, List.headD, List.tail, renderPass]
    rw [h1]
    norm_num
  have stage2 : update 1 []
      ({ isRendering := false, isUpdatePending := false, renders := 1
         active := 0, maxActive := 1 } : SchedSt) =
      { isRendering := false, isUpdatePending := false, renders := 2
        active := 0, maxActive := 1 } := by
    have h2 := update_quiet 0 { isRendering := false, isUpdatePending := false
                                renders := 1, active := 0, maxActive := 1 } rfl rfl
    norm_num at h2
    exact h2
  have key := stage1.trans stage2
  refine ⟨?_, ?_, ?_, ?_, ?_⟩
  · rw [key]
  · rw [key]
  · rw [key]
  · rw [key]
  · simp [update, hg]

/-- Closed witness for the render-coalescing theorem at three
synchronous dispatches during the render pass. -/
theorem c2_render_coalescing_witness :
    (1 ≤ 3 ∧
      ({ isRendering := true, isUpdatePending := false, renders := 0, active := 1
         maxActive := 1 } : SchedSt).isRendering = true) ∧
    ((update 2 [3] idle).renders = 2 ∧
     (update 2 [3] idle).maxActive = 1 ∧
     (update 2 [3] idle).isRendering = false ∧
     (update 2 [3] idle).isUpdatePending = false ∧
     update 1 [4, 5]
       { isRendering := true, isUpdatePending := false, renders := 0, active := 1
         maxActive := 1 } =
       { isRendering := true, isUpdatePending := true, renders := 0, active := 1
         maxActive := 1 }) :=
  ⟨⟨by decide, rfl⟩, c2_render_coalescing 3 0 [4, 5] _ (by decide) rfl⟩

end Sched

namespace Nodefoo

/-- Characterization of the start tags. -/
theorem isStartTag_iff (t : String) : isStartTag t = true ↔
    t = "API_DOC" ∨ t = "API_SNIPPET_ADD" ∨ t = "API_SNIPPET_VOTE" ∨
    t = "API_SNIPPET_GET" ∨ t = "API_SNIPPET_ALL" ∨ t = "API_SNIPPET_SEARCH" := by
  simp [isStartTag, startTagList]

/-- Characterization of the done tags. -/
theorem isDoneTag_iff (t : String) : isDoneTag t = true ↔
    t = "API_DOC_DONE" ∨ t = "API_SNIPPET_ADD_DONE" ∨ t = "API_SNIPPET_VOTE_DONE" ∨
    t = "API_SNIPPET_GET_DONE" ∨ t = "API_SNIPPET_ALL_DONE" ∨
    t = "API_SNIPPET_SEARCH_DONE" := by
  simp [isDoneTag, startTagList, doneTagOf]

/-- Merging a list of snippets into the entity cache never touches the
fetch counter. -/
theorem foldl_addSnippet_fetchCount (sl : List Snip) (s : St) :
    (sl.foldl addSnippet s).store.fetchCount = s.store.fetchCount := by
  induction sl generalizing s with
  | nil => rfl
  | cons a l ih => exact (ih (addSnippet s a)).trans rfl

/-- One admissible start/done dispatch never throws and moves the
fetch counter by exactly its delta: +1 for a start (in both the
authenticated and the unauthenticated branch of API_SNIPPET_ADD,
and whether or not the awaited operation later succeeds), -1 for a
done (in both the error and the success branch). -/
theorem dispatch_goodAct_step (t : String) (d : Data) (s : St)
    (h : goodAct (t, d) = true) :
    (dispatch 2 t d s).2 = none ∧
    (dispatch 2 t d s).1.store.fetchCount = s.store.fetchCount + fcDelta (t, d) := by
  simp only [goodAct, Bool.or_eq_true, Bool.and_eq_true] at h
  rcases h with hs | ⟨hdT, hw⟩
  · rcases (isStartTag_iff t).mp hs with rfl | rfl | rfl | rfl | rfl | rfl
    · refine ⟨?_, ?_⟩ <;>
        simp [dispatch, fetchStart, update, fcDelta, isStartTag, startTagList]
    · cases husr : s.store.userName <;>
        refine ⟨?_, ?_⟩ <;>
          simp [dispatch, fetchStart, update, addPendingDispatch, addError, husr,
            fcDelta, isStartTag, startTagList]
    · refine ⟨?_, ?_⟩ <;>
        simp [dispatch, fetchStart, update, fcDelta, isStartTag, startTagList]
    · refine ⟨?_, ?_⟩ <;>
        simp [dispatch, fetchStart, update, fcDelta, isStartTag, startTagList]
    · refine ⟨?_, ?_⟩ <;>
        simp [dispatch, fetchStart, update, fcDelta, isStartTag, startTagList]
    · refine ⟨?_, ?_⟩ <;>
        simp [dispatch, fetchStart, update, fcDelta, isStartTag, startTagList]
  · rcases (isDoneTag_iff t).mp hdT with rfl | rfl | rfl | rfl | rfl | rfl
    · -- API_DOC_DONE
      cases d
      case errDoc e doc =>
        rcases e with _ | e' <;>
          refine ⟨?_, ?_⟩ <;>
            simp [dispatch, fetchDone, addError, update, fcDelta, isStartTag,
              startTagList] <;> omega
      all_goals simp [wellDone] at hw
    · -- API_SNIPPET_ADD_DONE
      cases d
      case errRes e =>
        rcases e with _ | e'
        · cases hj : jsStrNeq (Data.str "/") s.store.location.url <;>
            refine ⟨?_, ?_⟩ <;>
              simp [dispatch, fetchDone, update, hj, fcDelta, isStartTag,
                startTagList] <;> omega
        · refine ⟨?_, ?_⟩ <;>
            simp [dispatch, fetchDone, addError, update, fcDelta, isStartTag,
              startTagList] <;> omega
      all_goals simp [wellDone] at hw
    · -- API_SNIPPET_VOTE_DONE
      cases d
      case errSnip e sn =>
        rcases e with _ | e'
        · simp [wellDone] at hw
          rcases sn with _ | v
          · simp at hw
          · refine ⟨?_, ?_⟩ <;>
              simp [dispatch, fetchDone, addSnippet, update, fcDelta, isStartTag,
                startTagList] <;> omega
        · refine ⟨?_, ?_⟩ <;>
            simp [dispatch, fetchDone, addError, update, fcDelta, isStartTag,
              startTagList] <;> omega
      all_goals simp [wellDone] at hw
    · -- API_SNIPPET_GET_DONE
      cases d
      case errSnip e sn =>
        rcases e with _ | e'
        · simp [wellDone] at hw
          rcases sn with _ | v
          · simp at hw
          · refine ⟨?_, ?_⟩ <;>
              simp [dispatch, fetchDone, addSnippet, update, fcDelta, isStartTag,
                startTagList] <;> omega
        · refine ⟨?_, ?_⟩ <;>
            simp [dispatch, fetchDone, addError, update, fcDelta, isStartTag,
              startTagList] <;> omega
      all_goals simp [wellDone] at hw
    · -- API_SNIPPET_ALL_DONE
      cases d
      case errSnips e sl =>
        rcases e with _ | e' <;>
          refine ⟨?_, ?_⟩ <;>
            simp [dispatch, fetchDone, addError, update, fcDelta, isStartTag,
              startTagList, foldl_addSnippet_fetchCount] <;> omega
      all_goals simp [wellDone] at hw
    · -- API_SNIPPET_SEARCH_DONE
      cases d
      case errSearch e se =>
        rcases e with _ | e'
        · simp [wellDone] at hw
          rcases se with _ | v
          · simp at hw
          · refine ⟨?_, ?_⟩ <;>
              simp [dispatch, fetchDone, addSearch, update, fcDelta, isStartTag,
                startTagList] <;> omega
        · refine ⟨?_, ?_⟩ <;>
            simp [dispatch, fetchDone, addError, update, fcDelta, isStartTag,
              startTagList] <;> omega
      all_goals simp [wellDone] at hw

end Nodefoo

namespace Nodefoo

/-- The aggregate delta of a cons. -/
theorem netDelta_cons (a : String × Data) (p : List (String × Data)) :
    netDelta (a :: p) = fcDelta a + netDelta p := by
  simp [netDelta]

/-- Running a sequence of admissible start/done dispatches never
throws and moves the fetch counter by the aggregate delta. -/
theorem runSeq_ok (p : List (String × Data)) :
    ∀ s : St, (∀ a ∈ p, goodAct a = true) →
      (runSeq p s).2 = none ∧
      (runSeq p s).1.store.fetchCount = s.store.fetchCount + netDelta p := by
  induction p with
  | nil => intro s _; simp [runSeq, netDelta]
  | cons a rest ih =>
    intro s h
    have ha : goodAct a = true := h a (List.mem_cons_self a rest)
    obtain ⟨t, d⟩ := a
    have hstep := dispatch_goodAct_step t d s ha
    rcases hd : dispatch 2 t d s with ⟨s1, e1⟩
    rw [hd] at hstep
    rcases e1 with _ | e1'
    · have hrest := ih s1 (fun b hb => h b (List.mem_cons_of_mem _ hb))
      have hr : runSeq ((t, d) :: rest) s = runSeq rest s1 := by
        simp [runSeq, hd]
      rw [hr, netDelta_cons]
      refine ⟨hrest.1, ?_⟩
      rw [hrest.2]
      simp only at hstep
      rw [hstep.2]
      ring
    · simp at hstep

/-- Counting a tag across a cons. -/
theorem countTag_cons (t : String) (a : String × Data) (p : List (String × Data)) :
    countTag t (a :: p) = countTag t p + (if a.1 == t then 1 else 0) := by
  simp [countTag, List.filter_cons]
  split <;> simp

/-- On sequences of admissible start/done actions, the aggregate delta
equals the per-tag balance. -/
theorem netDelta_eq_tagBal (p : List (String × Data))
    (h : ∀ a ∈ p, goodAct a = true) : netDelta p = tagBal p := by
  induction p with
  | nil => decide
  | cons a rest ih =>
    have ha := h a (List.mem_cons_self a rest)
    have hrest := ih (fun b hb => h b (List.mem_cons_of_mem _ hb))
    obtain ⟨t, d⟩ := a
    rw [netDelta_cons, hrest]
    simp only [goodAct, Bool.or_eq_true, Bool.and_eq_true] at ha
    have key : ∀ u : String, isStartTag u = true ∨ isDoneTag u = true →
        fcDelta (u, d) + tagBal rest = tagBal ((u, d) :: rest) := by
      intro u hu
      rcases hu with hs | hdT
      · rcases (isStartTag_iff u).mp hs with rfl | rfl | rfl | rfl | rfl | rfl <;>
          (simp [tagBal, startTagList, doneTagOf, countTag_cons, fcDelta, isStartTag,
            List.map_cons, List.map_nil, List.sum_cons, List.sum_nil]
           ring)
      · rcases (isDoneTag_iff u).mp hdT with rfl | rfl | rfl | rfl | rfl | rfl <;>
          (simp [tagBal, startTagList, doneTagOf, countTag_cons, fcDelta, isStartTag,
            List.map_cons, List.map_nil, List.sum_cons, List.sum_nil]
           ring)
    rcases ha with hs | ⟨hdT, _⟩
    · exact key t (Or.inl hs)
    · exact key t (Or.inr hdT)

/-- Prefix balance yields a nonnegative per-tag balance. -/
theorem tagBal_nonneg (p : List (String × Data))
    (hb : ∀ t ∈ startTagList, countTag (doneTagOf t) p ≤ countTag t p) :
    0 ≤ tagBal p := by
  rw [tagBal]
  apply List.sum_nonneg
  intro x hx
  obtain ⟨t, ht, rfl⟩ := List.mem_map.mp hx
  have := hb t ht
  omega

/-- Per-tag closure yields a zero per-tag balance. -/
theorem tagBal_zero (p : List (String × Data))
    (hc : ∀ t ∈ startTagList, countTag (doneTagOf t) p = countTag t p) :
    tagBal p = 0 := by
  rw [tagBal]
  apply List.sum_eq_zero
  intro x hx
  obtain ⟨t, ht, rfl⟩ := List.mem_map.mp hx
  have := hc t ht
  omega

/-- C1: for every dispatched sequence of start actions each followed
by its matching done dispatch — every prefix has no more dones than
starts of each tag and the full sequence closes every start, the
payload of each done being the one its continuation constructs — no
exception is thrown, the fetch counter returns to exactly its
pre-sequence value, and at every intermediate point it is at least its
pre-sequence value and never negative: every increment performed by a
start action (including the unauthenticated branch of
API_SNIPPET_ADD) has exactly one matching decrement, whether the
awaited operation succeeded or failed. -/
theorem c1_fetchCount_balanced (seq : List (String × Data)) (s : St)
    (hgood : ∀ a ∈ seq, goodAct a = true)
    (hbal : ∀ n < seq.length + 1, ∀ t ∈ startTagList,
      countTag (doneTagOf t) (seq.take n) ≤ countTag t (seq.take n))
    (hclosed : ∀ t ∈ startTagList, countTag (doneTagOf t) seq = countTag t seq)
    (hc0 : 0 ≤ s.store.fetchCount) :
    ((runSeq seq s).2 = none ∧
      (runSeq seq s).1.store.fetchCount = s.store.fetchCount) ∧
    (∀ n < seq.length + 1,
      (runSeq (seq.take n) s).2 = none ∧
      s.store.fetchCount ≤ (runSeq (seq.take n) s).1.store.fetchCount ∧
      0 ≤ (runSeq (seq.take n) s).1.store.fetchCount) := by
  constructor
  · have hrun := runSeq_ok seq s hgood
    refine ⟨hrun.1, ?_⟩
    rw [hrun.2, netDelta_eq_tagBal seq hgood, tagBal_zero seq hclosed]
    ring
  · intro n hn
    have hg : ∀ a ∈ seq.take n, goodAct a = true :=
      fun b hb => hgood b (List.mem_of_mem_take hb)
    have hrun := runSeq_ok (seq.take n) s hg
    have hnn := tagBal_nonneg (seq.take n) (hbal n hn)
    have heq := netDelta_eq_tagBal (seq.take n) hg
    refine ⟨hrun.1, ?_, ?_⟩ <;> rw [hrun.2] <;> omega

/-- Closed witness for the fetch-counter balance theorem: the spec
scenario of a snippet fetch followed by its successful completion,
run from the fresh store. -/
theorem c1_fetchCount_balanced_witness :
    (let seq : List (String × Data) :=
      [("API_SNIPPET_GET", Data.str "s1"),
       ("API_SNIPPET_GET_DONE", Data.errSnip none (some ⟨"s1", "x"⟩))]
     (∀ a ∈ seq, goodAct a = true) ∧
     (∀ n < seq.length + 1, ∀ t ∈ startTagList,
       countTag (doneTagOf t) (seq.take n) ≤ countTag t (seq.take n)) ∧
     (∀ t ∈ startTagList, countTag (doneTagOf t) seq = countTag t seq) ∧
     0 ≤ initSt.store.fetchCount ∧
     (((runSeq seq initSt).2 = none ∧
       (runSeq seq initSt).1.store.fetchCount = initSt.store.fetchCount) ∧
      (∀ n < seq.length + 1,
        (runSeq (seq.take n) initSt).2 = none ∧
        initSt.store.fetchCount ≤ (runSeq (seq.take n) initSt).1.store.fetchCount ∧
        0 ≤ (runSeq (seq.take n) initSt).1.store.fetchCount))) :=
  ⟨by decide, by decide, by decide, by decide,
   c1_fetchCount_balanced _ initSt (by decide) (by decide) (by decide) (by decide)⟩

end Nodefoo
